import Mathlib

/-!
Verification of the denord client library (src/Client.ts, src/rest/RestClient.ts)
against its natural-language specification.

The TypeScript source is shallowly embedded: JavaScript `Map` objects become
association lists (`mget`/`mset`/`mdel` mirror `Map.get`/`Map.set`/`Map.delete`:
`set` replaces the value in place when the key exists and appends otherwise,
`get` returns the first binding, `delete` removes the binding). Handlers that
can throw at runtime (property access on `undefined`, `new Map` applied to a
non-iterable value) return `Except JsError`. Mutation of a JavaScript object in
straight-line code is embedded as rebinding of the corresponding immutable
record, in the source's statement order.
-/

namespace Denord

/-- JavaScript runtime exceptions that the embedded handlers can raise. -/
inductive JsError where
  | typeError (msg : String)
  deriving DecidableEq, Repr

section MapOps

variable {K : Type} {V : Type} [DecidableEq K]

/-- `Map.get`: value at the key, `none` when absent. -/
def mget : List (K × V) → K → Option V
  | [], _ => none
  | (k', v') :: rest, k => if k' = k then some v' else mget rest k

/-- `Map.set`: replace the binding in place when the key is present, append otherwise. -/
def mset : List (K × V) → K → V → List (K × V)
  | [], k, v => [(k, v)]
  | (k', v') :: rest, k, v =>
    if k' = k then (k, v) :: rest else (k', v') :: mset rest k v

/-- `Map.delete`: remove the binding for the key. -/
def mdel : List (K × V) → K → List (K × V)
  | [], _ => []
  | (k', v') :: rest, k => if k' = k then rest else (k', v') :: mdel rest k

/-- `Map.has`. -/
def mhas (m : List (K × V)) (k : K) : Bool := (mget m k).isSome

/-- `Map.size` (keys are unique for maps built through `mset`). -/
def msize (m : List (K × V)) : Nat := m.length

/-- `new Map(pairs)` for an iterable of key/value pairs: insert each in order. -/
def mapOfList (l : List (K × V)) : List (K × V) :=
  l.foldl (fun m p => mset m p.1 p.2) []

theorem mget_mset_self (m : List (K × V)) (k : K) (v : V) :
    mget (mset m k v) k = some v := by
  induction m with
  | nil => simp [mget, mset]
  | cons hd tl ih =>
    by_cases h : hd.1 = k
    · simp [mset, mget, h]
    · simp [mset, mget, h, ih]

theorem mget_mset_ne (m : List (K × V)) (k k' : K) (v : V) (h : k' ≠ k) :
    mget (mset m k v) k' = mget m k' := by
  induction m with
  | nil =>
    simp only [mset, mget]
    rw [if_neg (fun he : k = k' => h he.symm)]
  | cons hd tl ih =>
    obtain ⟨a, b⟩ := hd
    by_cases hk : a = k
    · simp only [mset, if_pos hk, mget]
      rw [if_neg (fun he : k = k' => h he.symm),
        if_neg (fun he : a = k' => h (he.symm.trans hk))]
    · simp only [mset, if_neg hk, mget]
      by_cases hk' : a = k'
      · rw [if_pos hk', if_pos hk']
      · rw [if_neg hk', if_neg hk', ih]

theorem mget_mdel_self (m : List (K × V)) (k : K) (hm : m.map Prod.fst |>.Nodup) :
    mget (mdel m k) k = none := by
  induction m with
  | nil => simp [mget, mdel]
  | cons hd tl ih =>
    simp only [List.map_cons, List.nodup_cons] at hm
    by_cases h : hd.1 = k
    · simp only [mdel, if_pos h]
      subst h
      clear ih
      induction tl with
      | nil => simp [mget]
      | cons hd' tl' ih' =>
        simp only [List.mem_map] at hm
        have hne : hd'.1 ≠ hd.1 := by
          intro he
          exact hm.1 ⟨hd', List.mem_cons_self _ _, he⟩
        simp only [mget, if_neg hne]
        refine ih' ⟨fun hmem => ?_, (List.nodup_cons.mp hm.2).2⟩
        rcases List.mem_map.mp hmem with ⟨p, hp, hpe⟩
        exact hm.1 ⟨p, List.mem_cons_of_mem _ hp, hpe⟩
    · simp [mdel, h, mget, ih hm.2]

theorem mget_mdel_ne (m : List (K × V)) (k k' : K) (h : k' ≠ k) :
    mget (mdel m k) k' = mget m k' := by
  induction m with
  | nil => simp [mget, mdel]
  | cons hd tl ih =>
    obtain ⟨a, b⟩ := hd
    by_cases hk : a = k
    · simp only [mdel, if_pos hk, mget]
      rw [if_neg (fun he : a = k' => h (he.symm.trans hk))]
    · simp only [mdel, if_neg hk, mget]
      by_cases hk' : a = k'
      · rw [if_pos hk', if_pos hk']
      · rw [if_neg hk', if_neg hk', ih]

end MapOps

/-! ## Data model (src/Client.ts together with the structures it stores) -/

/-- Wire user object (the fields the handlers use). -/
structure UserData where
  id : Nat
  username : String
  deriving DecidableEq, Repr

/-- Reaction key: `e.data.emoji.id ?? e.data.emoji.name!` is either a
custom-emoji id or a literal emoji name. -/
inductive RKey where
  | eid (n : Nat)
  | ename (s : String)
  deriving DecidableEq, Repr

/-- Wire emoji object carried by reaction events: `{id, name}` with a nullable
id. `name` is modelled as always present, matching the source's `name!`
assertion. -/
structure EmojiData where
  id : Option Nat
  name : String
  deriving DecidableEq, Repr

/-- `e.data.emoji.id ?? e.data.emoji.name!` -/
def emojiKey (e : EmojiData) : RKey :=
  match e.id with
  | some n => .eid n
  | none => .ename e.name

/-- A reaction aggregate `{count, emoji, me}` as stored in `message.reactions`.
`count` is an `Int` because the source decrements it without a floor. -/
structure Reaction where
  count : Int
  emoji : EmojiData
  me : Bool
  deriving DecidableEq, Repr

/-- A cached message: id, channel id, denormalized guild id, content, and the
reaction-key → aggregate map (spec §3). -/
structure Message where
  id : Nat
  channelId : Nat
  guildId : Option Nat
  content : String
  reactions : List (RKey × Reaction)
  deriving DecidableEq, Repr

/-- Wire message payload fields used by the handlers. -/
structure MessagePayload where
  id : Nat
  channel_id : Nat
  guild_id : Option Nat
  content : String
  deriving DecidableEq, Repr

/-- Modelled from the spec: `new Message(client, payload)`
(structures/Message.ts is not in src) is one of the out-of-scope pure
payload-to-object value constructors; a freshly parsed message starts with no
cached reaction aggregates. -/
def mkMessage (d : MessagePayload) : Message :=
  { id := d.id, channelId := d.channel_id, guildId := d.guild_id,
    content := d.content, reactions := [] }

/-- Channel variants (`newChannelSwitch` case numbers 0–6). -/
inductive ChannelType where
  | text
  | dm
  | voice
  | groupDM
  | category
  | news
  | storefront
  deriving DecidableEq, Repr

/-- A cached channel with its local message cache. -/
structure Channel where
  id : Nat
  type : ChannelType
  messages : List (Nat × Message)
  deriving DecidableEq, Repr

/-- Wire channel payload fields used by `newChannelSwitch`. -/
structure ChannelPayload where
  id : Nat
  type : Nat
  deriving DecidableEq, Repr

/-- `Client.newChannelSwitch`: dispatch on the wire `type` discriminant. The
switch has no default, so an unknown type yields `undefined` (`none`). Each
channel constructor gives the new object a fresh, empty message cache. -/
def newChannelSwitch (d : ChannelPayload) : Option Channel :=
  match d.type with
  | 0 => some { id := d.id, type := .text, messages := [] }
  | 1 => some { id := d.id, type := .dm, messages := [] }
  | 2 => some { id := d.id, type := .voice, messages := [] }
  | 3 => some { id := d.id, type := .groupDM, messages := [] }
  | 4 => some { id := d.id, type := .category, messages := [] }
  | 5 => some { id := d.id, type := .news, messages := [] }
  | 6 => some { id := d.id, type := .storefront, messages := [] }
  | _ => none

/-- Wire guild-emoji object in a GUILD_EMOJIS_UPDATE payload (guild emojis
always carry an id). -/
structure GuildEmojiPayload where
  id : Nat
  name : String
  deriving DecidableEq, Repr

/-- A guild emoji as stored in `guild.emojis`. -/
structure GuildEmoji where
  id : Nat
  name : String
  deriving DecidableEq, Repr

/-- Modelled from the spec: `parseEmoji` (structures/Emoji.ts is not in src) is
an out-of-scope pure payload-to-object value constructor for a guild emoji. -/
def parseEmoji (e : GuildEmojiPayload) : GuildEmoji :=
  { id := e.id, name := e.name }

/-- Raw wire member object (the fields the handlers read and merge). -/
structure MemberData where
  user : UserData
  nick : Option String
  roles : List Nat
  joined_at : Nat
  deriving DecidableEq, Repr

/-- Modelled from the spec: `new GuildMember(client, raw, guildId)`
(structures/GuildMember.ts is not in src) — per spec §3 a Member wraps a User
reference plus server-scoped attributes (nickname, roles, join time); `raw`
keeps the wire object the member was built from, read back by the
GUILD_MEMBER_UPDATE spread merge. -/
structure GuildMember where
  user : UserData
  nick : Option String
  roles : List Nat
  joinedAt : Nat
  guildId : Nat
  raw : MemberData
  deriving DecidableEq, Repr

/-- Modelled from the spec: the GuildMember constructor copies the raw wire
fields into the member value. -/
def mkGuildMember (raw : MemberData) (guildId : Nat) : GuildMember :=
  { user := raw.user, nick := raw.nick, roles := raw.roles,
    joinedAt := raw.joined_at, guildId := guildId, raw := raw }

/-- A cached guild (`GatewayGuild`): the per-guild maps the verified handlers
touch. -/
structure Guild where
  id : Nat
  emojis : List (Nat × GuildEmoji)
  members : List (Nat × GuildMember)
  deriving DecidableEq, Repr

/-- The client's entity store (the `Client` class fields). -/
structure ClientState where
  guildChannels : List (Nat × Channel)
  dmChannels : List (Nat × Channel)
  guilds : List (Nat × Guild)
  users : List (Nat × UserData)
  user : Option UserData
  deriving DecidableEq, Repr

/-- The minimal stub emitted for a delete of a never-cached message. -/
structure UnknownMessage where
  id : Nat
  channelId : Nat
  guildId : Option Nat
  deriving DecidableEq, Repr

/-- The consumer-visible events (`this.emit(...)`) the verified handlers
produce. `guildEmojiCreate`/`guildEmojiDelete` carry an `Option` emoji because
the source reads `addedEmoji!`/`deletedEmoji!`, variables its loops may never
assign; `guildEmojiUpdate` carries only the guild because the source emits
`[guild]` there. -/
inductive Notif where
  | channelUpdate (old : Option Channel) (next : Channel)
  | guildEmojiCreate (g : Guild) (e : Option GuildEmoji)
  | guildEmojiUpdate (g : Guild)
  | guildEmojiDelete (g : Guild) (e : Option GuildEmoji)
  | guildMemberUpdate (g : Guild) (old : GuildMember) (next : GuildMember)
  | guildMembersChunk (g : Guild) (members : List (Nat × GuildMember))
  | messageUpdate (ch : Channel) (old : Option Message) (next : Message)
  | messageDelete (ch : Channel) (payload : Message ⊕ UnknownMessage)
  | messageReactionAdd (ch : Channel) (msg : Message ⊕ Nat) (emoji : EmojiData)
      (user : Option UserData)
  | messageReactionRemove (ch : Channel) (msg : Message ⊕ Nat) (emoji : EmojiData)
      (user : Option UserData)
  deriving DecidableEq, Repr

/-! ## Gateway event handlers (the `switch (e.name)` arms in the Client
constructor) -/

/-- The CHANNEL_UPDATE handler. The non-null assertion on the store `get` is a
pure type cast, so a missing prior channel flows into the notification as
`none`; reading `.type` on the `undefined` result of `newChannelSwitch`
throws. -/
def handleChannelUpdate (st : ClientState) (d : ChannelPayload) :
    Except JsError (ClientState × Notif) :=
  match newChannelSwitch d with
  | none => .error (.typeError "cannot read type of undefined")
  | some newChannel =>
    if newChannel.type = .dm ∨ newChannel.type = .groupDM then
      let oldChannel := mget st.dmChannels d.id
      let st := { st with dmChannels := mset st.dmChannels newChannel.id newChannel }
      .ok (st, .channelUpdate oldChannel newChannel)
    else
      let oldChannel := mget st.guildChannels d.id
      let st := { st with guildChannels := mset st.guildChannels newChannel.id newChannel }
      .ok (st, .channelUpdate oldChannel newChannel)

/-- The GUILD_EMOJIS_UPDATE handler, statement for statement. `guild` is a
mutable object, so the assignment `guild.emojis = newEmojis` is visible to
every later read of `guild.emojis`, including the size comparison and the two
diff loops; the loops keep the last entry whose id is missing from the other
map. A missing guild throws at the `guild.emojis` assignment. -/
def handleGuildEmojisUpdate (st : ClientState) (guild_id : Nat)
    (emojis : List GuildEmojiPayload) : Except JsError (ClientState × Notif) :=
  match mget st.guilds guild_id with
  | none => .error (.typeError "cannot set emojis of undefined")
  | some guild =>
    let newEmojis := mapOfList (emojis.map fun emoji => (emoji.id, parseEmoji emoji))
    let guild := { guild with emojis := newEmojis }
    let st := { st with guilds := mset st.guilds guild.id guild }
    if msize newEmojis > msize guild.emojis then
      let addedEmoji := newEmojis.foldl
        (fun acc p => if ¬mhas guild.emojis p.1 then some p.2 else acc)
        (none : Option GuildEmoji)
      .ok (st, .guildEmojiCreate guild addedEmoji)
    else if msize newEmojis = msize guild.emojis then
      .ok (st, .guildEmojiUpdate guild)
    else
      let deletedEmoji := guild.emojis.foldl
        (fun acc p => if ¬mhas newEmojis p.1 then some p.2 else acc)
        (none : Option GuildEmoji)
      .ok (st, .guildEmojiDelete guild deletedEmoji)

/-- Wire payload of GUILD_MEMBER_UPDATE (the guild id is passed separately). -/
structure MemberUpdatePayload where
  user : UserData
  nick : Option String
  roles : List Nat
  deriving DecidableEq, Repr

/-- `{...oldMember.raw, ...e.data}`: every payload field overrides the raw
field of the same name; fields present only in the raw object (the join time)
are kept. -/
def spreadMemberUpdate (raw : MemberData) (d : MemberUpdatePayload) : MemberData :=
  { user := d.user, nick := d.nick, roles := d.roles, joined_at := raw.joined_at }

/-- The GUILD_MEMBER_UPDATE handler. When the member is not in the guild's
member map, `oldMember` is `undefined` and the spread `...oldMember.raw`
throws a TypeError. -/
def handleGuildMemberUpdate (st : ClientState) (guild_id : Nat)
    (d : MemberUpdatePayload) : Except JsError (ClientState × Notif) :=
  match mget st.guilds guild_id with
  | none => .error (.typeError "cannot read members of undefined")
  | some guild =>
    match mget guild.members d.user.id with
    | none => .error (.typeError "cannot read raw of undefined")
    | some oldMember =>
      let newMember := mkGuildMember (spreadMemberUpdate oldMember.raw d) guild_id
      let guild := { guild with members := mset guild.members d.user.id newMember }
      let st := { st with guilds := mset st.guilds guild_id guild }
      .ok (st, .guildMemberUpdate guild oldMember newMember)

/-- An own-enumerable-property record, as produced by a JavaScript object
literal. -/
structure JsPlainObject where
  props : List (String × String)
  deriving DecidableEq, Repr

/-- Spreading a `Map` entries iterator into an object literal copies the
iterator object's own enumerable properties — a map iterator has none. -/
def iteratorOwnProps (_entries : List (Nat × GuildMember)) : List (String × String) :=
  []

/-- `new Map(arg)` applied to a plain object: plain objects have no
`Symbol.iterator`, so the `Map` constructor throws a TypeError. -/
def newMapOfObject (_o : JsPlainObject) :
    Except JsError (List (Nat × GuildMember)) :=
  .error (.typeError "object is not iterable")

/-- The GUILD_MEMBERS_CHUNK handler. The merge is written
`new Map({...guild.members.entries(), ...members.entries()})`: the object
spread of the two entry iterators yields an empty plain object, and passing a
plain object to the `Map` constructor throws — before any store mutation or
emit. -/
def handleGuildMembersChunk (st : ClientState) (guild_id : Nat)
    (chunk : List MemberData) : Except JsError (ClientState × Notif) := do
  let guild ← match mget st.guilds guild_id with
    | none => .error (.typeError "cannot read members of undefined")
    | some g => .ok g
  let members := mapOfList
    (chunk.map fun member => (member.user.id, mkGuildMember member guild_id))
  let spreadObject : JsPlainObject :=
    ⟨iteratorOwnProps guild.members ++ iteratorOwnProps members⟩
  let newMembers ← newMapOfObject spreadObject
  let guild := { guild with members := newMembers }
  let st := { st with guilds := mset st.guilds guild_id guild }
  .ok (st, .guildMembersChunk guild members)

/-- The MESSAGE_UPDATE handler: build the replacement message, read the prior
value (no non-null assertion — `undefined` flows into the notification), swap
it in, and emit `(channel, old, new)`. A missing channel throws at
`channel.messages`. -/
def handleMessageUpdate (st : ClientState) (d : MessagePayload) :
    Except JsError (ClientState × Notif) :=
  let newMessage := mkMessage d
  match d.guild_id with
  | some _ =>
    match mget st.guildChannels d.channel_id with
    | none => .error (.typeError "cannot read messages of undefined")
    | some channel =>
      let oldMessage := mget channel.messages newMessage.id
      let channel := { channel with
        messages := mset channel.messages newMessage.id newMessage }
      let st := { st with guildChannels := mset st.guildChannels channel.id channel }
      .ok (st, .messageUpdate channel oldMessage newMessage)
  | none =>
    match mget st.dmChannels d.channel_id with
    | none => .error (.typeError "cannot read messages of undefined")
    | some channel =>
      let oldMessage := mget channel.messages newMessage.id
      let channel := { channel with
        messages := mset channel.messages newMessage.id newMessage }
      let st := { st with dmChannels := mset st.dmChannels channel.id channel }
      .ok (st, .messageUpdate channel oldMessage newMessage)

/-- The MESSAGE_DELETE handler: drop the id from the channel's message cache
and emit either the cached message or the minimal `{id, channelId, guildId}`
stub built from the wire fields. -/
def handleMessageDelete (st : ClientState) (id channel_id : Nat)
    (guild_id : Option Nat) : Except JsError (ClientState × Notif) :=
  match guild_id with
  | some g =>
    match mget st.guildChannels channel_id with
    | none => .error (.typeError "cannot read messages of undefined")
    | some channel =>
      let message := mget channel.messages id
      let channel := { channel with messages := mdel channel.messages id }
      let st := { st with guildChannels := mset st.guildChannels channel.id channel }
      .ok (st, .messageDelete channel (match message with
        | some m => .inl m
        | none => .inr ⟨id, channel_id, some g⟩))
  | none =>
    match mget st.dmChannels channel_id with
    | none => .error (.typeError "cannot read messages of undefined")
    | some channel =>
      let message := mget channel.messages id
      let channel := { channel with messages := mdel channel.messages id }
      let st := { st with dmChannels := mset st.dmChannels channel.id channel }
      .ok (st, .messageDelete channel (match message with
        | some m => .inl m
        | none => .inr ⟨id, channel_id, none⟩))

/-- Wire payload of the reaction events. -/
structure ReactionPayload where
  user_id : Nat
  channel_id : Nat
  message_id : Nat
  guild_id : Option Nat
  emoji : EmojiData
  deriving DecidableEq, Repr

/-- The shared body of the two MESSAGE_REACTION_ADD branches: adjust (or
create) the aggregate under the emoji's key. A fresh aggregate is stored with
`count: 0`; reading `this.user!.id` throws when no session user is set. -/
def reactionAddToMessage (ownUser : Option UserData) (d : ReactionPayload)
    (message : Message) : Except JsError Message := do
  let own ← match ownUser with
    | none => .error (.typeError "cannot read id of undefined")
    | some u => .ok u
  let key := emojiKey d.emoji
  match mget message.reactions key with
  | some previousReaction =>
    let updated : Reaction :=
      { count := previousReaction.count + 1, emoji := d.emoji,
        me := (d.user_id == own.id) || previousReaction.me }
    .ok { message with reactions := mset message.reactions key updated }
  | none =>
    let fresh : Reaction :=
      { count := 0, emoji := d.emoji, me := d.user_id == own.id }
    .ok { message with reactions := mset message.reactions key fresh }

/-- The MESSAGE_REACTION_ADD handler. The `users.get(...)!` result is never
dereferenced, so a missing acting user flows into the notification as `none`;
an uncached message leaves the store untouched and the notification carries
the bare message id. -/
def handleMessageReactionAdd (st : ClientState) (d : ReactionPayload) :
    Except JsError (ClientState × Notif) := do
  let user := mget st.users d.user_id
  match d.guild_id with
  | some _ =>
    match mget st.guildChannels d.channel_id with
    | none => .error (.typeError "cannot read messages of undefined")
    | some channel =>
      match mget channel.messages d.message_id with
      | some message =>
        let message ← reactionAddToMessage st.user d message
        let channel := { channel with
          messages := mset channel.messages message.id message }
        let st := { st with guildChannels := mset st.guildChannels channel.id channel }
        .ok (st, .messageReactionAdd channel (.inl message) d.emoji user)
      | none =>
        .ok (st, .messageReactionAdd channel (.inr d.message_id) d.emoji user)
  | none =>
    match mget st.dmChannels d.channel_id with
    | none => .error (.typeError "cannot read messages of undefined")
    | some channel =>
      match mget channel.messages d.message_id with
      | some message =>
        let message ← reactionAddToMessage st.user d message
        let channel := { channel with
          messages := mset channel.messages message.id message }
        let st := { st with dmChannels := mset st.dmChannels channel.id channel }
        .ok (st, .messageReactionAdd channel (.inl message) d.emoji user)
      | none =>
        .ok (st, .messageReactionAdd channel (.inr d.message_id) d.emoji user)

/-- The shared body of the two MESSAGE_REACTION_REMOVE branches: the aggregate
lookup carries a non-null assertion, so a missing aggregate throws at
`--previousReaction.count`; an existing aggregate is decremented without a
floor. -/
def reactionRemoveFromMessage (ownUser : Option UserData) (d : ReactionPayload)
    (message : Message) : Except JsError Message := do
  let key := emojiKey d.emoji
  let previousReaction ← match mget message.reactions key with
    | none => .error (.typeError "cannot read count of undefined")
    | some r => .ok r
  let own ← match ownUser with
    | none => .error (.typeError "cannot read id of undefined")
    | some u => .ok u
  let updated : Reaction :=
    { count := previousReaction.count - 1, emoji := d.emoji,
      me := (d.user_id != own.id) && previousReaction.me }
  .ok { message with reactions := mset message.reactions key updated }

/-- The MESSAGE_REACTION_REMOVE handler. The guild branch stores the
decremented aggregate; the DM branch stores it and then immediately deletes
the key from the message's reaction map. -/
def handleMessageReactionRemove (st : ClientState) (d : ReactionPayload) :
    Except JsError (ClientState × Notif) := do
  let user := mget st.users d.user_id
  match d.guild_id with
  | some _ =>
    match mget st.guildChannels d.channel_id with
    | none => .error (.typeError "cannot read messages of undefined")
    | some channel =>
      match mget channel.messages d.message_id with
      | some message =>
        let message ← reactionRemoveFromMessage st.user d message
        let channel := { channel with
          messages := mset channel.messages message.id message }
        let st := { st with guildChannels := mset st.guildChannels channel.id channel }
        .ok (st, .messageReactionRemove channel (.inl message) d.emoji user)
      | none =>
        .ok (st, .messageReactionRemove channel (.inr d.message_id) d.emoji user)
  | none =>
    match mget st.dmChannels d.channel_id with
    | none => .error (.typeError "cannot read messages of undefined")
    | some channel =>
      match mget channel.messages d.message_id with
      | some message =>
        let message ← reactionRemoveFromMessage st.user d message
        let message := { message with
          reactions := mdel message.reactions (emojiKey d.emoji) }
        let channel := { channel with
          messages := mset channel.messages message.id message }
        let st := { st with dmChannels := mset st.dmChannels channel.id channel }
        .ok (st, .messageReactionRemove channel (.inl message) d.emoji user)
      | none =>
        .ok (st, .messageReactionRemove channel (.inr d.message_id) d.emoji user)

/-- A reaction event of either direction, for interleaved sequences. -/
inductive ReactionEvent where
  | add (d : ReactionPayload)
  | remove (d : ReactionPayload)
  deriving DecidableEq, Repr

/-- Apply a finite sequence of reaction events to the store, in order. -/
def applyReactionEvents (st : ClientState) :
    List ReactionEvent → Except JsError ClientState
  | [] => .ok st
  | ev :: rest => do
    let r ← match ev with
      | .add d => handleMessageReactionAdd st d
      | .remove d => handleMessageReactionRemove st d
    applyReactionEvents r.1 rest

/-! ## RestClient.request (src/rest/RestClient.ts) -/

/-- The response of a `fetch` call: HTTP status and parsed JSON body. -/
structure HttpResponse where
  status : Nat
  body : String
  deriving DecidableEq, Repr

/-- The typed failures `request` can throw: `DiscordJSONError` carries the
machine-readable response JSON, `HTTPError` a status and message. -/
inductive RestError where
  | discordJSONError (status : Nat) (errorJson : String)
  | httpError (status : Nat) (message : String)
  deriving DecidableEq, Repr

/-- The `switch (res.status)` at the end of `RestClient.request`. -/
def classifyResponse (res : HttpResponse) : Except RestError (Option String) :=
  if res.status = 200 ∨ res.status = 201 then .ok (some res.body)
  else if res.status = 204 then .ok none
  else if res.status = 400 ∨ res.status = 404 then
    .error (.discordJSONError res.status res.body)
  else if res.status = 401 then
    .error (.httpError res.status "You supplied an invalid token")
  else if res.status = 403 then
    .error (.httpError res.status "You don't have permission to do this")
  else if res.status = 429 then
    .error (.httpError res.status "You are getting rate-limited")
  else if res.status = 502 then
    .error (.httpError res.status "Gateway unavailable. Wait and retry")
  else if res.status = 500 ∨ res.status = 503 ∨ res.status = 504 ∨
      res.status = 507 ∨ res.status = 508 then
    .error (.httpError res.status "Discord internal error")
  else .error (.httpError res.status "Unexpected response")

/-- `RestClient.request`: the body is straight-line — it issues exactly one
`fetch` (call number 0 on the network) and classifies its response; there is
no loop or retry. The result is returned together with the number of outbound
calls made. -/
def request (net : Nat → HttpResponse) : Except RestError (Option String) × Nat :=
  (classifyResponse (net 0), 1)

/-- The spec's response status classes (§6, quoted by the claim). -/
inductive StatusClass where
  | successBody
  | successNoBody
  | validation
  | invalidCredential
  | forbidden
  | rateLimited
  | serverFault
  | fallback
  deriving DecidableEq, Repr

/-- Modelled from the spec: the class each status should map to, following the
claim's enumeration of statuses. -/
def specStatusClass (s : Nat) : StatusClass :=
  if s = 200 ∨ s = 201 then .successBody
  else if s = 204 then .successNoBody
  else if s = 400 ∨ s = 404 then .validation
  else if s = 401 then .invalidCredential
  else if s = 403 then .forbidden
  else if s = 429 then .rateLimited
  else if s = 500 ∨ s = 502 ∨ s = 503 ∨ s = 504 ∨ s = 507 ∨ s = 508 then
    .serverFault
  else .fallback

/-- Classify an actual outcome of `request` by its shape; the class of an
`HTTPError` is identified by its human-readable message. -/
def outcomeClass : Except RestError (Option String) → StatusClass
  | .ok (some _) => .successBody
  | .ok none => .successNoBody
  | .error (.discordJSONError _ _) => .validation
  | .error (.httpError _ msg) =>
    if msg = "You supplied an invalid token" then .invalidCredential
    else if msg = "You don't have permission to do this" then .forbidden
    else if msg = "You are getting rate-limited" then .rateLimited
    else if msg = "Gateway unavailable. Wait and retry" ∨
        msg = "Discord internal error" then .serverFault
    else .fallback

/-! ## Client constructor intents (src/Client.ts, `intentsMap` and the
constructor) -/

/-- The `intentsMap` constant: the fifteen gateway intent flags. -/
def intentsMap : List (String × Nat) :=
  [("guilds", 1 <<< 0),
   ("guildMembers", 1 <<< 1),
   ("guildBans", 1 <<< 2),
   ("guildEmojis", 1 <<< 3),
   ("guildIntegrations", 1 <<< 4),
   ("guildWebhooks", 1 <<< 5),
   ("guildInvites", 1 <<< 6),
   ("guildVoiceStates", 1 <<< 7),
   ("guildPresences", 1 <<< 8),
   ("guildMessages", 1 <<< 9),
   ("guildMessageReactions", 1 <<< 10),
   ("guildMessageTyping", 1 <<< 11),
   ("directMessages", 1 <<< 12),
   ("directMessageReactions", 1 <<< 13),
   ("directMessageTyping", 1 <<< 14)]

/-- The `intents` constructor argument:
`Record<keyof typeof intentsMap, boolean> | number | boolean`. -/
inductive IntentsArg where
  | bool (b : Bool)
  | num (n : Nat)
  | record (f : String → Bool)

/-- JavaScript truthiness of the `intents` argument (`if (intents)`): `false`
and `0` are falsy; every object is truthy. -/
def intentsTruthy : IntentsArg → Bool
  | .bool b => b
  | .num n => n != 0
  | .record _ => true

/-- The intent computation in the Client constructor: `newIntents` starts at 0;
a truthy boolean ORs together every value of `intentsMap`
(`Object.values(intentsMap).reduce((prev, curr) => prev | curr, 0)`), a number
passes through, and a record ORs in the value of every key whose entry is
true. An omitted argument defaults to `true`. -/
def computeIntents (intents : IntentsArg) : Nat :=
  if intentsTruthy intents then
    match intents with
    | .bool _ => intentsMap.foldl (fun prev curr => prev ||| curr.2) 0
    | .num n => n
    | .record f =>
      intentsMap.foldl (fun acc kv => if f kv.1 then acc ||| kv.2 else acc) 0
  else 0

/-! ## Theorems -/

/-- Monad-bind reduction for `Except`, used to unfold the handlers. -/
theorem ebind_ok {ε α β : Type} (a : α) (f : α → Except ε β) :
    ((.ok a : Except ε α) >>= f) = f a := rfl

/-- `mset` on a present key leaves the key list unchanged. -/
theorem map_fst_mset_present {K V : Type} [DecidableEq K]
    (m : List (K × V)) (k : K) (v : V) (h : (mget m k).isSome) :
    (mset m k v).map Prod.fst = m.map Prod.fst := by
  induction m with
  | nil => simp [mget] at h
  | cons hd tl ih =>
    obtain ⟨a, b⟩ := hd
    by_cases hk : a = k
    · simp [mset, hk]
    · simp only [mget, if_neg hk] at h
      simp [mset, hk, ih h]

/-- Folding an OR guarded by a predicate equals filtering and then folding
the OR. -/
theorem foldl_or_filter (f : String → Bool) (l : List (String × Nat)) (acc : Nat) :
    l.foldl (fun a kv => if f kv.1 then a ||| kv.2 else a) acc =
      (l.filter fun kv => f kv.1).foldl (fun a kv => a ||| kv.2) acc := by
  induction l generalizing acc with
  | nil => rfl
  | cons hd tl ih =>
    by_cases h : f hd.1
    · simp [List.foldl, List.filter_cons, h, ih]
    · simp [List.foldl, List.filter_cons, h, ih]

/-- Fixture for claim C1: a guild with no emojis. -/
def c1State : ClientState :=
  { guildChannels := [], dmChannels := [],
    guilds := [(1, { id := 1, emojis := [], members := [] })],
    users := [], user := none }

/-- Claim C1: for a GUILD_EMOJIS_UPDATE whose new emoji set is strictly larger
than the guild's previous set (here: previous size 0, new size 1), the claim
requires a `guildEmojiCreate` notification carrying the added emoji. The
handler assigns `guild.emojis = newEmojis` before the size comparison, so it
compares the new map against itself and emits `guildEmojiUpdate` instead; the
create and delete branches are unreachable for a cached guild. -/
theorem c1_larger_emoji_set_emits_update :
    handleGuildEmojisUpdate c1State 1 [{ id := 5, name := "x" }] =
      .ok ({ guildChannels := [], dmChannels := [],
             guilds := [(1, { id := 1,
                              emojis := [(5, { id := 5, name := "x" })],
                              members := [] })],
             users := [], user := none },
           .guildEmojiUpdate { id := 1,
                               emojis := [(5, { id := 5, name := "x" })],
                               members := [] }) := by
  rfl

/-- Fixture for claim C2: a cached guild text channel with an empty message
cache. -/
def c2MsgState : ClientState :=
  { guildChannels := [(10, { id := 10, type := .text, messages := [] })],
    dmChannels := [], guilds := [], users := [], user := none }

/-- Fixture for claim C2: a cached guild with an empty member map. -/
def c2MemberState : ClientState :=
  { guildChannels := [], dmChannels := [],
    guilds := [(1, { id := 1, emojis := [], members := [] })],
    users := [], user := none }

/-- Claim C2: the three update handlers applied where the prior value is
absent from the store. CHANNEL_UPDATE and MESSAGE_UPDATE complete and emit
their notification with `old = none`, but GUILD_MEMBER_UPDATE throws a
TypeError spreading `...oldMember.raw` when the member is missing, so the
claim fails on GUILD_MEMBER_UPDATE. -/
theorem c2_member_update_crashes_without_prior :
    handleChannelUpdate
        { guildChannels := [], dmChannels := [], guilds := [], users := [],
          user := none }
        { id := 10, type := 0 } =
      .ok ({ guildChannels := [(10, { id := 10, type := .text, messages := [] })],
             dmChannels := [], guilds := [], users := [], user := none },
           .channelUpdate none { id := 10, type := .text, messages := [] })
    ∧ handleMessageUpdate c2MsgState
        { id := 50, channel_id := 10, guild_id := some 1, content := "hi" } =
      .ok ({ guildChannels := [(10, { id := 10,
                                      type := .text,
                                      messages := [(50, { id := 50,
                                                          channelId := 10,
                                                          guildId := some 1,
                                                          content := "hi",
                                                          reactions := [] })] })],
             dmChannels := [], guilds := [], users := [], user := none },
           .messageUpdate
             { id := 10,
               type := .text,
               messages := [(50, { id := 50,
                                   channelId := 10,
                                   guildId := some 1,
                                   content := "hi",
                                   reactions := [] })] }
             none
             { id := 50, channelId := 10, guildId := some 1, content := "hi",
               reactions := [] })
    ∧ handleGuildMemberUpdate c2MemberState 1
        { user := { id := 7, username := "u" }, nick := none, roles := [] } =
      .error (.typeError "cannot read raw of undefined") := by
  exact ⟨rfl, rfl, rfl⟩

/-- Fixture for claim C3: a cached guild message with no reactions, the
session user being user 9. -/
def c3State : ClientState :=
  { guildChannels := [(100, { id := 100,
                              type := .text,
                              messages := [(50, { id := 50,
                                                  channelId := 100,
                                                  guildId := some 1,
                                                  content := "m",
                                                  reactions := [] })] })],
    dmChannels := [], guilds := [], users := [],
    user := some { id := 9, username := "me" } }

/-- Fixture for claim C3: user 7 reacts with the unicode emoji "x" on the
cached message. -/
def c3Payload : ReactionPayload :=
  { user_id := 7, channel_id := 100, message_id := 50, guild_id := some 1,
    emoji := { id := none, name := "x" } }

/-- Claim C3: after one MESSAGE_REACTION_ADD followed by one
MESSAGE_REACTION_REMOVE for the same fresh key on a cached guild message, the
stored aggregate count is `-1`: a fresh add initialises the count to 0 and the
remove decrements without a floor, so the claimed non-negativity invariant
fails on this two-event interleaving. -/
theorem c3_reaction_count_negative :
    ((((applyReactionEvents c3State
          [ReactionEvent.add c3Payload,
           ReactionEvent.remove c3Payload]).toOption.bind
        fun st => mget st.guildChannels 100).bind
        fun ch => mget ch.messages 50).bind
        fun m => mget m.reactions (RKey.ename "x")).map (fun r => r.count)
      = some (-1) := by
  rfl

/-- Fixture for claim C5: a cached guild whose member map holds user 7. -/
def c5State : ClientState :=
  { guildChannels := [], dmChannels := [],
    guilds := [(1, { id := 1,
                     emojis := [],
                     members := [(7, mkGuildMember
                       { user := { id := 7, username := "a" }, nick := none,
                         roles := [], joined_at := 0 } 1)] })],
    users := [], user := none }

/-- Claim C5: the chunk merge is written
`new Map({...guild.members.entries(), ...members.entries()})`, which throws a
TypeError (a plain object is not iterable) on every GUILD_MEMBERS_CHUNK for a
cached guild — before any store mutation or notification. No additive merge
ever happens. -/
theorem c5_member_chunk_throws :
    handleGuildMembersChunk c5State 1
      [{ user := { id := 8, username := "b" }, nick := none, roles := [],
         joined_at := 0 }] =
      .error (.typeError "object is not iterable") := by
  rfl

/-- Claim C10: an omitted or `true` intents argument yields the OR of all
fifteen flags, 32767; a numeric argument is passed through unchanged (`0` is
falsy, but the falsy path also yields 0); `false` yields 0; and a record
yields the OR of exactly the flags whose entries are true. -/
theorem c10_intents_computation :
    computeIntents (.bool true) = 32767
    ∧ (∀ n : Nat, computeIntents (.num n) = n)
    ∧ computeIntents (.bool false) = 0
    ∧ (∀ f : String → Bool, computeIntents (.record f) =
        (intentsMap.filter fun kv => f kv.1).foldl (fun acc kv => acc ||| kv.2) 0) := by
  refine ⟨by decide, ?_, rfl, ?_⟩
  · intro n
    by_cases h : n = 0 <;> simp [computeIntents, intentsTruthy, h]
  · intro f
    simp only [computeIntents, intentsTruthy, if_true]
    exact foldl_or_filter f intentsMap 0

/-- Witness for C10: a concrete numeric argument and a concrete record
argument. -/
theorem c10_intents_witness :
    computeIntents (.num 5) = 5
    ∧ computeIntents (.record fun s => s == "guilds" || s == "directMessages") =
        (intentsMap.filter fun kv =>
          (fun s => s == "guilds" || s == "directMessages") kv.1).foldl
          (fun acc kv => acc ||| kv.2) 0 :=
  ⟨c10_intents_computation.2.1 5, c10_intents_computation.2.2.2 _⟩

/-- Claim C8: `request` makes exactly one outbound call and its outcome is
determined by that single response; the response status maps to the spec's
classes as the claim enumerates them (200/201 parsed body, 204 no body,
400/404 structured DiscordJSONError carrying the response JSON, 401
invalid-credential, 403 forbidden, 429 rate-limited, 500/502/503/504/507/508
server-fault, anything else the unclassified fallback). -/
theorem c8_request_status_mapping :
    (∀ net : Nat → HttpResponse, request net = (classifyResponse (net 0), 1))
    ∧ (∀ res : HttpResponse,
        outcomeClass (classifyResponse res) = specStatusClass res.status
        ∧ ((res.status = 200 ∨ res.status = 201) →
            classifyResponse res = .ok (some res.body))
        ∧ (res.status = 204 → classifyResponse res = .ok none)
        ∧ ((res.status = 400 ∨ res.status = 404) →
            classifyResponse res = .error (.discordJSONError res.status res.body))) := by
  refine ⟨fun net => rfl, fun res => ⟨?_, ?_, ?_, ?_⟩⟩
  · unfold classifyResponse specStatusClass
    split_ifs <;> simp_all [outcomeClass]
  · intro h
    rcases h with h | h <;> simp [classifyResponse, h]
  · intro h
    simp [classifyResponse, h]
  · intro h
    rcases h with h | h <;> simp [classifyResponse, h]

/-- Witness for C8: a concrete 404 response produces the structured JSON error
in one call, and a concrete 503 response lands in the server-fault class. -/
theorem c8_request_witness :
    request (fun _ => { status := 404, body := "nf" }) =
      (.error (.discordJSONError 404 "nf"), 1)
    ∧ outcomeClass (classifyResponse { status := 503, body := "" }) =
        specStatusClass 503 := by
  constructor
  · rw [c8_request_status_mapping.1 (fun _ => { status := 404, body := "nf" })]
    rw [(c8_request_status_mapping.2 { status := 404, body := "nf" }).2.2.2
      (Or.inr rfl)]
  · exact (c8_request_status_mapping.2 { status := 503, body := "" }).1

/-- The aggregate value the add handler stores over an existing aggregate. -/
def addedAggregate (r : Reaction) (d : ReactionPayload) (own : UserData) : Reaction :=
  { count := r.count + 1, emoji := d.emoji, me := (d.user_id == own.id) || r.me }

/-- The aggregate value the remove handler computes from an existing
aggregate. -/
def removedAggregate (r : Reaction) (d : ReactionPayload) (own : UserData) : Reaction :=
  { count := r.count - 1, emoji := d.emoji, me := (d.user_id != own.id) && r.me }

/-- Evaluation of MESSAGE_REACTION_ADD on a cached guild message with an
existing aggregate under the event's emoji key. -/
theorem reactionAdd_guild_eval (st : ClientState) (d : ReactionPayload)
    (gid : Nat) (ch : Channel) (msg : Message) (r : Reaction) (own : UserData)
    (hgid : d.guild_id = some gid) (hu : st.user = some own)
    (hch : mget st.guildChannels d.channel_id = some ch)
    (hmsg : mget ch.messages d.message_id = some msg)
    (hr : mget msg.reactions (emojiKey d.emoji) = some r) :
    handleMessageReactionAdd st d =
      (let msg' : Message :=
         { msg with
           reactions := mset msg.reactions (emojiKey d.emoji)
                          (addedAggregate r d own) }
       let ch' : Channel :=
         { ch with messages := mset ch.messages msg'.id msg' }
       .ok ({ st with guildChannels := mset st.guildChannels ch'.id ch' },
            .messageReactionAdd ch' (.inl msg') d.emoji
              (mget st.users d.user_id))) := by
  simp only [handleMessageReactionAdd, reactionAddToMessage, addedAggregate,
    hgid, hu, hch, hmsg, hr, ebind_ok]

/-- Evaluation of MESSAGE_REACTION_ADD on a cached DM message with an
existing aggregate under the event's emoji key. -/
theorem reactionAdd_dm_eval (st : ClientState) (d : ReactionPayload)
    (ch : Channel) (msg : Message) (r : Reaction) (own : UserData)
    (hgid : d.guild_id = none) (hu : st.user = some own)
    (hch : mget st.dmChannels d.channel_id = some ch)
    (hmsg : mget ch.messages d.message_id = some msg)
    (hr : mget msg.reactions (emojiKey d.emoji) = some r) :
    handleMessageReactionAdd st d =
      (let msg' : Message :=
         { msg with
           reactions := mset msg.reactions (emojiKey d.emoji)
                          (addedAggregate r d own) }
       let ch' : Channel :=
         { ch with messages := mset ch.messages msg'.id msg' }
       .ok ({ st with dmChannels := mset st.dmChannels ch'.id ch' },
            .messageReactionAdd ch' (.inl msg') d.emoji
              (mget st.users d.user_id))) := by
  simp only [handleMessageReactionAdd, reactionAddToMessage, addedAggregate,
    hgid, hu, hch, hmsg, hr, ebind_ok]

/-- Evaluation of MESSAGE_REACTION_REMOVE on a cached guild message with an
existing aggregate: the decremented aggregate is stored and retained. -/
theorem reactionRemove_guild_eval (st : ClientState) (d : ReactionPayload)
    (gid : Nat) (ch : Channel) (msg : Message) (r : Reaction) (own : UserData)
    (hgid : d.guild_id = some gid) (hu : st.user = some own)
    (hch : mget st.guildChannels d.channel_id = some ch)
    (hmsg : mget ch.messages d.message_id = some msg)
    (hr : mget msg.reactions (emojiKey d.emoji) = some r) :
    handleMessageReactionRemove st d =
      (let msg' : Message :=
         { msg with
           reactions := mset msg.reactions (emojiKey d.emoji)
                          (removedAggregate r d own) }
       let ch' : Channel :=
         { ch with messages := mset ch.messages msg'.id msg' }
       .ok ({ st with guildChannels := mset st.guildChannels ch'.id ch' },
            .messageReactionRemove ch' (.inl msg') d.emoji
              (mget st.users d.user_id))) := by
  simp only [handleMessageReactionRemove, reactionRemoveFromMessage,
    removedAggregate, hgid, hu, hch, hmsg, hr, ebind_ok]

/-- Evaluation of MESSAGE_REACTION_REMOVE on a cached DM message with an
existing aggregate: the decremented aggregate is stored and the key is then
deleted from the message's reaction map. -/
theorem reactionRemove_dm_eval (st : ClientState) (d : ReactionPayload)
    (ch : Channel) (msg : Message) (r : Reaction) (own : UserData)
    (hgid : d.guild_id = none) (hu : st.user = some own)
    (hch : mget st.dmChannels d.channel_id = some ch)
    (hmsg : mget ch.messages d.message_id = some msg)
    (hr : mget msg.reactions (emojiKey d.emoji) = some r) :
    handleMessageReactionRemove st d =
      (let msg' : Message :=
         { msg with
           reactions := mdel (mset msg.reactions (emojiKey d.emoji)
                               (removedAggregate r d own)) (emojiKey d.emoji) }
       let ch' : Channel :=
         { ch with messages := mset ch.messages msg'.id msg' }
       .ok ({ st with dmChannels := mset st.dmChannels ch'.id ch' },
            .messageReactionRemove ch' (.inl msg') d.emoji
              (mget st.users d.user_id))) := by
  simp only [handleMessageReactionRemove, reactionRemoveFromMessage,
    removedAggregate, hgid, hu, hch, hmsg, hr, ebind_ok]

/-- MESSAGE_REACTION_ADD on an uncached message in a cached guild channel:
no store mutation, notification carries the bare message id. -/
theorem reactionAdd_guild_uncached (st : ClientState) (d : ReactionPayload)
    (gid : Nat) (ch : Channel)
    (hgid : d.guild_id = some gid)
    (hch : mget st.guildChannels d.channel_id = some ch)
    (hmsg : mget ch.messages d.message_id = none) :
    handleMessageReactionAdd st d =
      .ok (st, .messageReactionAdd ch (.inr d.message_id) d.emoji
        (mget st.users d.user_id)) := by
  simp only [handleMessageReactionAdd, hgid, hch, hmsg]

/-- MESSAGE_REACTION_ADD on an uncached message in a cached DM channel. -/
theorem reactionAdd_dm_uncached (st : ClientState) (d : ReactionPayload)
    (ch : Channel)
    (hgid : d.guild_id = none)
    (hch : mget st.dmChannels d.channel_id = some ch)
    (hmsg : mget ch.messages d.message_id = none) :
    handleMessageReactionAdd st d =
      .ok (st, .messageReactionAdd ch (.inr d.message_id) d.emoji
        (mget st.users d.user_id)) := by
  simp only [handleMessageReactionAdd, hgid, hch, hmsg]

/-- MESSAGE_REACTION_REMOVE on an uncached message in a cached guild
channel. -/
theorem reactionRemove_guild_uncached (st : ClientState) (d : ReactionPayload)
    (gid : Nat) (ch : Channel)
    (hgid : d.guild_id = some gid)
    (hch : mget st.guildChannels d.channel_id = some ch)
    (hmsg : mget ch.messages d.message_id = none) :
    handleMessageReactionRemove st d =
      .ok (st, .messageReactionRemove ch (.inr d.message_id) d.emoji
        (mget st.users d.user_id)) := by
  simp only [handleMessageReactionRemove, hgid, hch, hmsg]

/-- MESSAGE_REACTION_REMOVE on an uncached message in a cached DM channel. -/
theorem reactionRemove_dm_uncached (st : ClientState) (d : ReactionPayload)
    (ch : Channel)
    (hgid : d.guild_id = none)
    (hch : mget st.dmChannels d.channel_id = some ch)
    (hmsg : mget ch.messages d.message_id = none) :
    handleMessageReactionRemove st d =
      .ok (st, .messageReactionRemove ch (.inr d.message_id) d.emoji
        (mget st.users d.user_id)) := by
  simp only [handleMessageReactionRemove, hgid, hch, hmsg]

/-- Claim C7: for a MESSAGE_DELETE whose channel is cached (in the store the
wire guild id selects), the message id is removed from that channel's message
cache, and the emitted messageDelete carries the cached full message when it
was cached and otherwise the minimal stub holding exactly the wire id, channel
id and (when present on the wire) guild id. -/
theorem c7_message_delete (st : ClientState) (id channel_id : Nat) (ch : Channel)
    (hnd : (ch.messages.map Prod.fst).Nodup) :
    (∀ g, mget st.guildChannels channel_id = some ch →
      handleMessageDelete st id channel_id (some g) =
        .ok ({ st with
               guildChannels := mset st.guildChannels ch.id
                                  { ch with messages := mdel ch.messages id } },
             .messageDelete { ch with messages := mdel ch.messages id }
               (match mget ch.messages id with
                | some m => .inl m
                | none => .inr { id := id, channelId := channel_id,
                                 guildId := some g }))
        ∧ mget (mdel ch.messages id) id = none)
    ∧ (mget st.dmChannels channel_id = some ch →
      handleMessageDelete st id channel_id none =
        .ok ({ st with
               dmChannels := mset st.dmChannels ch.id
                               { ch with messages := mdel ch.messages id } },
             .messageDelete { ch with messages := mdel ch.messages id }
               (match mget ch.messages id with
                | some m => .inl m
                | none => .inr { id := id, channelId := channel_id,
                                 guildId := none }))
        ∧ mget (mdel ch.messages id) id = none) := by
  constructor
  · intro g h
    refine ⟨?_, mget_mdel_self ch.messages id hnd⟩
    simp only [handleMessageDelete, h]
  · intro h
    refine ⟨?_, mget_mdel_self ch.messages id hnd⟩
    simp only [handleMessageDelete, h]

/-- Fixture for the C7 witness: the cached message. -/
def c7Msg : Message :=
  { id := 50, channelId := 10, guildId := some 1, content := "m",
    reactions := [] }

/-- Fixture for the C7 witness: a guild channel caching message 50 and a DM
channel with an empty message cache. -/
def c7State : ClientState :=
  { guildChannels := [(10, { id := 10, type := .text,
                             messages := [(50, c7Msg)] })],
    dmChannels := [(20, { id := 20, type := .dm, messages := [] })],
    guilds := [], users := [], user := none }

/-- Witness for C7: deleting the cached message 50 emits the full message and
empties the cache; deleting the never-cached message 60 from the DM channel
emits the minimal stub. -/
theorem c7_message_delete_witness :
    handleMessageDelete c7State 50 10 (some 1) =
      .ok ({ guildChannels := [(10, { id := 10, type := .text, messages := [] })],
             dmChannels := [(20, { id := 20, type := .dm, messages := [] })],
             guilds := [], users := [], user := none },
           .messageDelete { id := 10, type := .text, messages := [] }
             (.inl c7Msg))
    ∧ handleMessageDelete c7State 60 20 none =
      .ok ({ guildChannels := [(10, { id := 10, type := .text,
                                      messages := [(50, c7Msg)] })],
             dmChannels := [(20, { id := 20, type := .dm, messages := [] })],
             guilds := [], users := [], user := none },
           .messageDelete { id := 20, type := .dm, messages := [] }
             (.inr { id := 60, channelId := 20, guildId := none })) := by
  constructor
  · exact ((c7_message_delete c7State 50 10
      { id := 10, type := .text, messages := [(50, c7Msg)] }
      (by decide)).1 1 rfl).1
  · exact ((c7_message_delete c7State 60 20
      { id := 20, type := .dm, messages := [] }
      (by decide)).2 rfl).1

/-- Claim C6: a GUILD_MEMBER_UPDATE on a cached member whose payload changes
only the nickname (payload user and roles equal the cached raw member's, nick
different) emits a guildMemberUpdate whose new member value keeps the prior
member's role list and user while differing in nickname, and modifies nothing
else in the store: both channel stores, the user store, the session user,
every other guild, the guild's emoji map and every other member are
untouched. -/
theorem c6_nickname_only_member_update
    (st : ClientState) (guild_id : Nat) (g : Guild) (d : MemberUpdatePayload)
    (old : GuildMember)
    (hg : mget st.guilds guild_id = some g)
    (hm : mget g.members d.user.id = some old)
    (hwf : old = mkGuildMember old.raw guild_id)
    (huser : d.user = old.raw.user)
    (hroles : d.roles = old.raw.roles)
    (hnick : d.nick ≠ old.raw.nick) :
    ∃ st' g' newM,
      handleGuildMemberUpdate st guild_id d =
        .ok (st', .guildMemberUpdate g' old newM)
      ∧ newM.roles = old.roles
      ∧ newM.nick ≠ old.nick
      ∧ newM.user = old.user
      ∧ st'.guildChannels = st.guildChannels
      ∧ st'.dmChannels = st.dmChannels
      ∧ st'.users = st.users
      ∧ st'.user = st.user
      ∧ (∀ gid', gid' ≠ guild_id → mget st'.guilds gid' = mget st.guilds gid')
      ∧ mget st'.guilds guild_id = some g'
      ∧ g'.emojis = g.emojis
      ∧ g'.id = g.id
      ∧ (∀ uid', uid' ≠ d.user.id → mget g'.members uid' = mget g.members uid')
      ∧ mget g'.members d.user.id = some newM := by
  have hold_roles : old.roles = old.raw.roles := by rw [hwf]; rfl
  have hold_nick : old.nick = old.raw.nick := by rw [hwf]; rfl
  have hold_user : old.user = old.raw.user := by rw [hwf]; rfl
  refine ⟨{ st with guilds := mset st.guilds guild_id { g with members := mset g.members d.user.id (mkGuildMember (spreadMemberUpdate old.raw d) guild_id) } }, { g with members := mset g.members d.user.id (mkGuildMember (spreadMemberUpdate old.raw d) guild_id) }, mkGuildMember (spreadMemberUpdate old.raw d) guild_id, ?_, ?_, ?_, ?_, rfl, rfl, rfl, rfl, ?_, ?_, rfl, rfl, ?_, ?_⟩
  · simp only [handleGuildMemberUpdate, hg, hm]
  · show d.roles = old.roles
    rw [hroles, hold_roles]
  · show d.nick ≠ old.nick
    rw [hold_nick]
    exact hnick
  · show d.user = old.user
    rw [huser, hold_user]
  · intro gid' hne
    exact mget_mset_ne _ _ _ _ hne
  · exact mget_mset_self _ _ _
  · intro uid' hne
    exact mget_mset_ne _ _ _ _ hne
  · exact mget_mset_self _ _ _

/-- Fixture for the C6 witness: the cached member's raw wire object. -/
def c6Raw : MemberData :=
  { user := { id := 7, username := "u" }, nick := some "oldnick",
    roles := [3, 4], joined_at := 11 }

/-- Fixture for the C6 witness: a guild caching the member built from
`c6Raw`. -/
def c6State : ClientState :=
  { guildChannels := [], dmChannels := [],
    guilds := [(1, { id := 1,
                     emojis := [(5, { id := 5, name := "e" })],
                     members := [(7, mkGuildMember c6Raw 1)] })],
    users := [], user := none }

/-- Witness for C6: a payload renaming the member to "newnick" with user and
roles unchanged. -/
theorem c6_nickname_only_member_update_witness :
    ∃ st' g' newM,
      handleGuildMemberUpdate c6State 1
        { user := c6Raw.user, nick := some "newnick", roles := c6Raw.roles } =
        .ok (st', .guildMemberUpdate g' (mkGuildMember c6Raw 1) newM)
      ∧ newM.roles = (mkGuildMember c6Raw 1).roles
      ∧ newM.nick ≠ (mkGuildMember c6Raw 1).nick
      ∧ newM.user = (mkGuildMember c6Raw 1).user
      ∧ st'.guildChannels = c6State.guildChannels
      ∧ st'.dmChannels = c6State.dmChannels
      ∧ st'.users = c6State.users
      ∧ st'.user = c6State.user
      ∧ (∀ gid', gid' ≠ 1 → mget st'.guilds gid' = mget c6State.guilds gid')
      ∧ mget st'.guilds 1 = some g'
      ∧ g'.emojis = [(5, { id := 5, name := "e" })]
      ∧ g'.id = 1
      ∧ (∀ uid', uid' ≠ 7 → mget g'.members uid' =
          mget [(7, mkGuildMember c6Raw 1)] uid')
      ∧ mget g'.members 7 = some newM :=
  c6_nickname_only_member_update c6State 1
    { id := 1, emojis := [(5, { id := 5, name := "e" })],
      members := [(7, mkGuildMember c6Raw 1)] }
    { user := c6Raw.user, nick := some "newnick", roles := c6Raw.roles }
    (mkGuildMember c6Raw 1) rfl rfl rfl rfl rfl (by decide)

/-- Claim C9: for a MESSAGE_REACTION_REMOVE whose referenced message is cached
in a DM or group-DM channel, the handler deletes the emoji's aggregate entry
from the message's reaction map entirely — the key is absent afterwards,
whatever the prior aggregate was — whereas for a message cached in a guild
channel the decremented aggregate entry is retained under the same key. -/
theorem c9_remove_dm_deletes_guild_retains :
    (∀ st d ch msg r own,
      d.guild_id = none →
      st.user = some own →
      mget st.dmChannels d.channel_id = some ch →
      mget ch.messages d.message_id = some msg →
      (msg.reactions.map Prod.fst).Nodup →
      mget msg.reactions (emojiKey d.emoji) = some r →
      ∃ st' ch' msg' u,
        handleMessageReactionRemove st d =
          .ok (st', .messageReactionRemove ch' (.inl msg') d.emoji u)
        ∧ mget msg'.reactions (emojiKey d.emoji) = none
        ∧ mget ch'.messages msg'.id = some msg'
        ∧ mget st'.dmChannels ch'.id = some ch')
    ∧ (∀ st d gid ch msg r own,
      d.guild_id = some gid →
      st.user = some own →
      mget st.guildChannels d.channel_id = some ch →
      mget ch.messages d.message_id = some msg →
      mget msg.reactions (emojiKey d.emoji) = some r →
      ∃ st' ch' msg' u,
        handleMessageReactionRemove st d =
          .ok (st', .messageReactionRemove ch' (.inl msg') d.emoji u)
        ∧ mget msg'.reactions (emojiKey d.emoji) =
            some (removedAggregate r d own)
        ∧ (removedAggregate r d own).count = r.count - 1
        ∧ mget ch'.messages msg'.id = some msg'
        ∧ mget st'.guildChannels ch'.id = some ch') := by
  constructor
  · intro st d ch msg r own hgid hu hch hmsg hnd hr
    refine ⟨_, _, _, _,
      reactionRemove_dm_eval st d ch msg r own hgid hu hch hmsg hr,
      ?_, ?_, ?_⟩
    · apply mget_mdel_self
      have hk : (mget msg.reactions (emojiKey d.emoji)).isSome := by
        rw [hr]; rfl
      rw [map_fst_mset_present _ _ _ hk]
      exact hnd
    · exact mget_mset_self _ _ _
    · exact mget_mset_self _ _ _
  · intro st d gid ch msg r own hgid hu hch hmsg hr
    refine ⟨_, _, _, _,
      reactionRemove_guild_eval st d gid ch msg r own hgid hu hch hmsg hr,
      ?_, rfl, ?_, ?_⟩
    · exact mget_mset_self _ _ _
    · exact mget_mset_self _ _ _
    · exact mget_mset_self _ _ _

/-- Fixture for the C9 witness: the prior aggregate under key "x". -/
def c9Agg : Reaction :=
  { count := 5, emoji := { id := none, name := "x" }, me := true }

/-- Fixture for the C9 witness: a guild channel caching message 50 and a DM
channel caching message 60, both with the aggregate `c9Agg` under key "x";
the session user is user 9. -/
def c9State : ClientState :=
  { guildChannels := [(100, { id := 100,
                              type := .text,
                              messages := [(50, { id := 50, channelId := 100, guildId := some 1, content := "m", reactions := [(RKey.ename "x", c9Agg)] })] })],
    dmChannels := [(200, { id := 200,
                           type := .dm,
                           messages := [(60, { id := 60, channelId := 200, guildId := none, content := "n", reactions := [(RKey.ename "x", c9Agg)] })] })],
    guilds := [], users := [], user := some { id := 9, username := "me" } }

/-- Fixture for the C9 witness: user 7 removes the "x" reaction on the DM
message. -/
def c9DmPayload : ReactionPayload :=
  { user_id := 7, channel_id := 200, message_id := 60, guild_id := none,
    emoji := { id := none, name := "x" } }

/-- Fixture for the C9 witness: user 7 removes the "x" reaction on the guild
message. -/
def c9GuildPayload : ReactionPayload :=
  { user_id := 7, channel_id := 100, message_id := 50, guild_id := some 1,
    emoji := { id := none, name := "x" } }

/-- Witness for C9: both parts applied to the concrete fixtures. -/
theorem c9_remove_witness :
    (∃ st' ch' msg' u,
      handleMessageReactionRemove c9State c9DmPayload =
        .ok (st', .messageReactionRemove ch' (.inl msg') c9DmPayload.emoji u)
      ∧ mget msg'.reactions (emojiKey c9DmPayload.emoji) = none
      ∧ mget ch'.messages msg'.id = some msg'
      ∧ mget st'.dmChannels ch'.id = some ch')
    ∧ (∃ st' ch' msg' u,
      handleMessageReactionRemove c9State c9GuildPayload =
        .ok (st', .messageReactionRemove ch' (.inl msg') c9GuildPayload.emoji u)
      ∧ mget msg'.reactions (emojiKey c9GuildPayload.emoji) =
          some (removedAggregate c9Agg c9GuildPayload { id := 9, username := "me" })
      ∧ (removedAggregate c9Agg c9GuildPayload { id := 9, username := "me" }).count
          = c9Agg.count - 1
      ∧ mget ch'.messages msg'.id = some msg'
      ∧ mget st'.guildChannels ch'.id = some ch') :=
  ⟨c9_remove_dm_deletes_guild_retains.1 c9State c9DmPayload _ _ c9Agg
      { id := 9, username := "me" } rfl rfl rfl rfl (by decide) rfl,
   c9_remove_dm_deletes_guild_retains.2 c9State c9GuildPayload 1 _ _ c9Agg
      { id := 9, username := "me" } rfl rfl rfl rfl rfl⟩

/-- Fixture for claim C4: a DM channel caching message 60 whose aggregate
under key "x" has count 5; the session user is user 9. -/
def c4State : ClientState :=
  { guildChannels := [],
    dmChannels := [(200, { id := 200,
                           type := .dm,
                           messages := [(60, { id := 60, channelId := 200, guildId := none, content := "n", reactions := [(RKey.ename "x", { count := 5, emoji := { id := none, name := "x" }, me := false })] })] })],
    guilds := [], users := [], user := some { id := 9, username := "me" } }

/-- Fixture for claim C4: user 7 removes the "x" reaction on the DM
message. -/
def c4Payload : ReactionPayload :=
  { user_id := 7, channel_id := 200, message_id := 60, guild_id := none,
    emoji := { id := none, name := "x" } }

/-- Claim C4 counterexample: a MESSAGE_REACTION_REMOVE on a cached DM message
whose key "x" held count 5. The claim requires the aggregate stored under the
key to have its count changed by exactly −1 (to 4); instead the handler, in
the DM branch, deletes the entry after decrementing, so the message is still
cached but no aggregate at all is stored under the key afterwards. -/
theorem c4_dm_remove_drops_aggregate :
    (((handleMessageReactionRemove c4State c4Payload).toOption.bind
        fun res => mget res.1.dmChannels 200).bind
        fun ch => mget ch.messages 60).map
        (fun m => mget m.reactions (RKey.ename "x"))
      = some none := by
  rfl

/-- Claim C4 (amended): for a reaction event whose referenced message is
cached and already holds an aggregate under the event's emoji key, ADD stores
the aggregate with count incremented by exactly 1 and the me flag recomputed
as (acting user = session user) OR the previous flag; REMOVE in a guild
channel stores it with count decremented by exactly 1 and the me flag
recomputed as (acting user ≠ session user) AND the previous flag; REMOVE in a
DM channel computes the same decremented aggregate but then deletes the entry
outright. If the referenced message is not cached, no store mutation occurs
and the notification carries the bare message id. -/
theorem c4_reaction_adjustment :
    (∀ st d gid ch msg r own, d.guild_id = some gid → st.user = some own →
      mget st.guildChannels d.channel_id = some ch →
      mget ch.messages d.message_id = some msg →
      mget msg.reactions (emojiKey d.emoji) = some r →
      ∃ st' ch' msg',
        handleMessageReactionAdd st d =
          .ok (st', .messageReactionAdd ch' (.inl msg') d.emoji
            (mget st.users d.user_id))
        ∧ mget msg'.reactions (emojiKey d.emoji) = some (addedAggregate r d own)
        ∧ (addedAggregate r d own).count = r.count + 1
        ∧ (addedAggregate r d own).me = ((d.user_id == own.id) || r.me))
    ∧ (∀ st d ch msg r own, d.guild_id = none → st.user = some own →
      mget st.dmChannels d.channel_id = some ch →
      mget ch.messages d.message_id = some msg →
      mget msg.reactions (emojiKey d.emoji) = some r →
      ∃ st' ch' msg',
        handleMessageReactionAdd st d =
          .ok (st', .messageReactionAdd ch' (.inl msg') d.emoji
            (mget st.users d.user_id))
        ∧ mget msg'.reactions (emojiKey d.emoji) = some (addedAggregate r d own)
        ∧ (addedAggregate r d own).count = r.count + 1
        ∧ (addedAggregate r d own).me = ((d.user_id == own.id) || r.me))
    ∧ (∀ st d gid ch msg r own, d.guild_id = some gid → st.user = some own →
      mget st.guildChannels d.channel_id = some ch →
      mget ch.messages d.message_id = some msg →
      mget msg.reactions (emojiKey d.emoji) = some r →
      ∃ st' ch' msg',
        handleMessageReactionRemove st d =
          .ok (st', .messageReactionRemove ch' (.inl msg') d.emoji
            (mget st.users d.user_id))
        ∧ mget msg'.reactions (emojiKey d.emoji) =
            some (removedAggregate r d own)
        ∧ (removedAggregate r d own).count = r.count - 1
        ∧ (removedAggregate r d own).me = ((d.user_id != own.id) && r.me))
    ∧ (∀ st d ch msg r own, d.guild_id = none → st.user = some own →
      mget st.dmChannels d.channel_id = some ch →
      mget ch.messages d.message_id = some msg →
      (msg.reactions.map Prod.fst).Nodup →
      mget msg.reactions (emojiKey d.emoji) = some r →
      ∃ st' ch' msg',
        handleMessageReactionRemove st d =
          .ok (st', .messageReactionRemove ch' (.inl msg') d.emoji
            (mget st.users d.user_id))
        ∧ mget msg'.reactions (emojiKey d.emoji) = none)
    ∧ (∀ st d gid ch, d.guild_id = some gid →
      mget st.guildChannels d.channel_id = some ch →
      mget ch.messages d.message_id = none →
      handleMessageReactionAdd st d =
        .ok (st, .messageReactionAdd ch (.inr d.message_id) d.emoji
          (mget st.users d.user_id)))
    ∧ (∀ st d ch, d.guild_id = none →
      mget st.dmChannels d.channel_id = some ch →
      mget ch.messages d.message_id = none →
      handleMessageReactionAdd st d =
        .ok (st, .messageReactionAdd ch (.inr d.message_id) d.emoji
          (mget st.users d.user_id)))
    ∧ (∀ st d gid ch, d.guild_id = some gid →
      mget st.guildChannels d.channel_id = some ch →
      mget ch.messages d.message_id = none →
      handleMessageReactionRemove st d =
        .ok (st, .messageReactionRemove ch (.inr d.message_id) d.emoji
          (mget st.users d.user_id)))
    ∧ (∀ st d ch, d.guild_id = none →
      mget st.dmChannels d.channel_id = some ch →
      mget ch.messages d.message_id = none →
      handleMessageReactionRemove st d =
        .ok (st, .messageReactionRemove ch (.inr d.message_id) d.emoji
          (mget st.users d.user_id))) := by
  refine ⟨?_, ?_, ?_, ?_, ?_, ?_, ?_, ?_⟩
  · intro st d gid ch msg r own hgid hu hch hmsg hr
    exact ⟨_, _, _,
      reactionAdd_guild_eval st d gid ch msg r own hgid hu hch hmsg hr,
      mget_mset_self _ _ _, rfl, rfl⟩
  · intro st d ch msg r own hgid hu hch hmsg hr
    exact ⟨_, _, _,
      reactionAdd_dm_eval st d ch msg r own hgid hu hch hmsg hr,
      mget_mset_self _ _ _, rfl, rfl⟩
  · intro st d gid ch msg r own hgid hu hch hmsg hr
    exact ⟨_, _, _,
      reactionRemove_guild_eval st d gid ch msg r own hgid hu hch hmsg hr,
      mget_mset_self _ _ _, rfl, rfl⟩
  · intro st d ch msg r own hgid hu hch hmsg hnd hr
    refine ⟨_, _, _,
      reactionRemove_dm_eval st d ch msg r own hgid hu hch hmsg hr, ?_⟩
    apply mget_mdel_self
    have hk : (mget msg.reactions (emojiKey d.emoji)).isSome := by
      rw [hr]; rfl
    rw [map_fst_mset_present _ _ _ hk]
    exact hnd
  · intro st d gid ch hgid hch hmsg
    exact reactionAdd_guild_uncached st d gid ch hgid hch hmsg
  · intro st d ch hgid hch hmsg
    exact reactionAdd_dm_uncached st d ch hgid hch hmsg
  · intro st d gid ch hgid hch hmsg
    exact reactionRemove_guild_uncached st d gid ch hgid hch hmsg
  · intro st d ch hgid hch hmsg
    exact reactionRemove_dm_uncached st d ch hgid hch hmsg

/-- Fixture for the C4 witness: the prior aggregate under key "x". -/
def c4WAgg : Reaction :=
  { count := 5, emoji := { id := none, name := "x" }, me := true }

/-- Fixture for the C4 witness: the session user. -/
def c4WOwn : UserData := { id := 9, username := "me" }

/-- Fixture for the C4 witness: the cached guild message. -/
def c4WGuildMsg : Message :=
  { id := 50, channelId := 100, guildId := some 1, content := "m",
    reactions := [(RKey.ename "x", c4WAgg)] }

/-- Fixture for the C4 witness: the cached DM message. -/
def c4WDmMsg : Message :=
  { id := 60, channelId := 200, guildId := none, content := "n",
    reactions := [(RKey.ename "x", c4WAgg)] }

/-- Fixture for the C4 witness: the cached guild channel. -/
def c4WGuildCh : Channel :=
  { id := 100, type := .text, messages := [(50, c4WGuildMsg)] }

/-- Fixture for the C4 witness: the cached DM channel. -/
def c4WDmCh : Channel :=
  { id := 200, type := .dm, messages := [(60, c4WDmMsg)] }

/-- Fixture for the C4 witness: the whole store. -/
def c4WState : ClientState :=
  { guildChannels := [(100, c4WGuildCh)], dmChannels := [(200, c4WDmCh)],
    guilds := [], users := [], user := some c4WOwn }

/-- Fixture for the C4 witness: guild reaction event on the cached message. -/
def c4WPG : ReactionPayload :=
  { user_id := 7, channel_id := 100, message_id := 50, guild_id := some 1,
    emoji := { id := none, name := "x" } }

/-- Fixture for the C4 witness: DM reaction event on the cached message. -/
def c4WPD : ReactionPayload :=
  { user_id := 7, channel_id := 200, message_id := 60, guild_id := none,
    emoji := { id := none, name := "x" } }

/-- Fixture for the C4 witness: guild reaction event on the uncached message
99. -/
def c4WPGU : ReactionPayload :=
  { user_id := 7, channel_id := 100, message_id := 99, guild_id := some 1,
    emoji := { id := none, name := "x" } }

/-- Fixture for the C4 witness: DM reaction event on the uncached message
99. -/
def c4WPDU : ReactionPayload :=
  { user_id := 7, channel_id := 200, message_id := 99, guild_id := none,
    emoji := { id := none, name := "x" } }

/-- Witness for C4: every part of the amended claim applied to concrete
fixtures. -/
theorem c4_reaction_adjustment_witness :
    (∃ st' ch' msg',
      handleMessageReactionAdd c4WState c4WPG =
        .ok (st', .messageReactionAdd ch' (.inl msg') c4WPG.emoji
          (mget c4WState.users c4WPG.user_id))
      ∧ mget msg'.reactions (emojiKey c4WPG.emoji) =
          some (addedAggregate c4WAgg c4WPG c4WOwn)
      ∧ (addedAggregate c4WAgg c4WPG c4WOwn).count = c4WAgg.count + 1
      ∧ (addedAggregate c4WAgg c4WPG c4WOwn).me =
          ((c4WPG.user_id == c4WOwn.id) || c4WAgg.me))
    ∧ (∃ st' ch' msg',
      handleMessageReactionAdd c4WState c4WPD =
        .ok (st', .messageReactionAdd ch' (.inl msg') c4WPD.emoji
          (mget c4WState.users c4WPD.user_id))
      ∧ mget msg'.reactions (emojiKey c4WPD.emoji) =
          some (addedAggregate c4WAgg c4WPD c4WOwn)
      ∧ (addedAggregate c4WAgg c4WPD c4WOwn).count = c4WAgg.count + 1
      ∧ (addedAggregate c4WAgg c4WPD c4WOwn).me =
          ((c4WPD.user_id == c4WOwn.id) || c4WAgg.me))
    ∧ (∃ st' ch' msg',
      handleMessageReactionRemove c4WState c4WPG =
        .ok (st', .messageReactionRemove ch' (.inl msg') c4WPG.emoji
          (mget c4WState.users c4WPG.user_id))
      ∧ mget msg'.reactions (emojiKey c4WPG.emoji) =
          some (removedAggregate c4WAgg c4WPG c4WOwn)
      ∧ (removedAggregate c4WAgg c4WPG c4WOwn).count = c4WAgg.count - 1
      ∧ (removedAggregate c4WAgg c4WPG c4WOwn).me =
          ((c4WPG.user_id != c4WOwn.id) && c4WAgg.me))
    ∧ (∃ st' ch' msg',
      handleMessageReactionRemove c4WState c4WPD =
        .ok (st', .messageReactionRemove ch' (.inl msg') c4WPD.emoji
          (mget c4WState.users c4WPD.user_id))
      ∧ mget msg'.reactions (emojiKey c4WPD.emoji) = none)
    ∧ handleMessageReactionAdd c4WState c4WPGU =
        .ok (c4WState, .messageReactionAdd c4WGuildCh (.inr c4WPGU.message_id)
          c4WPGU.emoji (mget c4WState.users c4WPGU.user_id))
    ∧ handleMessageReactionAdd c4WState c4WPDU =
        .ok (c4WState, .messageReactionAdd c4WDmCh (.inr c4WPDU.message_id)
          c4WPDU.emoji (mget c4WState.users c4WPDU.user_id))
    ∧ handleMessageReactionRemove c4WState c4WPGU =
        .ok (c4WState, .messageReactionRemove c4WGuildCh (.inr c4WPGU.message_id)
          c4WPGU.emoji (mget c4WState.users c4WPGU.user_id))
    ∧ handleMessageReactionRemove c4WState c4WPDU =
        .ok (c4WState, .messageReactionRemove c4WDmCh (.inr c4WPDU.message_id)
          c4WPDU.emoji (mget c4WState.users c4WPDU.user_id)) :=
  ⟨c4_reaction_adjustment.1 c4WState c4WPG 1 c4WGuildCh c4WGuildMsg c4WAgg
      c4WOwn rfl rfl rfl rfl rfl,
   (c4_reaction_adjustment.2.1 c4WState c4WPD c4WDmCh c4WDmMsg c4WAgg
      c4WOwn rfl rfl rfl rfl rfl),
   (c4_reaction_adjustment.2.2.1 c4WState c4WPG 1 c4WGuildCh c4WGuildMsg c4WAgg
      c4WOwn rfl rfl rfl rfl rfl),
   (c4_reaction_adjustment.2.2.2.1 c4WState c4WPD c4WDmCh c4WDmMsg c4WAgg
      c4WOwn rfl rfl rfl rfl (by decide) rfl),
   (c4_reaction_adjustment.2.2.2.2.1 c4WState c4WPGU 1 c4WGuildCh rfl rfl rfl),
   (c4_reaction_adjustment.2.2.2.2.2.1 c4WState c4WPDU c4WDmCh rfl rfl rfl),
   (c4_reaction_adjustment.2.2.2.2.2.2.1 c4WState c4WPGU 1 c4WGuildCh rfl rfl rfl),
   (c4_reaction_adjustment.2.2.2.2.2.2.2 c4WState c4WPDU c4WDmCh rfl rfl rfl)⟩

end Denord
